import Mathlib

/-!
Verification development for the InConnect frontend and its routing engine
specification. Definitions are shallow embeddings of the TypeScript source
under src/frontend (pages, api client, websocket manager); the backend
routing engine (rule evaluator, assignment resolver, ticket state machine)
is not part of the repository snapshot and is modelled from the
specification where a claim depends on it.
-/

namespace InConnect

/-! ## Rule management page (frontend/src/pages, RuleManagementPage) -/

/-- Embeds the typeMap record of the rule management page: label for each
rule type tag shown in the table. -/
def typeMap : List (String × String) :=
  [("keyword", "关键词匹配"),
   ("category", "分类匹配"),
   ("priority", "优先级匹配"),
   ("round_robin", "轮询分配"),
   ("manual", "手动分配")]

/-- Embeds the Option values offered by the rule_type Select in the
create/edit rule modal of the rule management page. -/
def ruleTypeSelectOptions : List String :=
  ["keyword", "category", "priority", "manual"]

/-- Rule type universe from the data model: type is one of keyword,
category, priority, round_robin, manual. -/
def specRuleTypes : List String :=
  ["keyword", "category", "priority", "round_robin", "manual"]

/-! ## Ticket list page (frontend/src/pages/TicketList.tsx) -/

/-- Embeds the statusMap of the ticket list status column renderer. -/
def ticketListStatusMap : List (String × String) :=
  [("pending", "待处理"),
   ("assigned", "已分配"),
   ("in_progress", "处理中"),
   ("resolved", "已解决"),
   ("closed", "已关闭"),
   ("reopened", "已重开")]

/-- Embeds the Option values of the status-filter Select on the ticket
list page. -/
def statusFilterOptions : List String :=
  ["pending", "assigned", "in_progress", "resolved", "closed"]

/-- Ticket status universe from the data model: status is one of pending,
assigned, in_progress, resolved, closed, reopened. -/
def specTicketStatuses : List String :=
  ["pending", "assigned", "in_progress", "resolved", "closed", "reopened"]

/-- Embeds the status column renderer of the ticket list: statusMap lookup
with the raw status string as fallback. -/
def renderStatusLabel (status : String) : String :=
  ((ticketListStatusMap.lookup status).getD status)

/-! ## Ticket detail page (unnamed TicketDetailPage source) -/

/-- Embeds the labels record inside getEventTypeLabel on the ticket detail
page. -/
def eventTypeLabels : List (String × String) :=
  [("created", "创建工单"),
   ("assigned", "分配工单"),
   ("status_changed", "状态变更"),
   ("comment", "添加评论"),
   ("resolved", "已解决"),
   ("closed", "已关闭"),
   ("reopened", "已重开")]

/-- Embeds getEventTypeLabel: look the event type up in the labels record
and fall back to the raw event type string. -/
def getEventTypeLabel (eventType : String) : String :=
  ((eventTypeLabels.lookup eventType).getD eventType)

/-- Timeline event type universe from the data model. -/
def specEventTypes : List String :=
  ["created", "assigned", "status_changed", "comment", "resolved",
   "closed", "reopened"]

/-! ## API client (frontend/src/api/client.ts) -/

/-- Embeds the APIResponse envelope of client.ts: code, message and a
nullable data payload. -/
structure APIResponse (α : Type) where
  code : Int
  message : String
  data : Option α
deriving DecidableEq

/-- Model of an axios response as seen by the response interceptor: the
parsed body is the data field. -/
structure AxiosResponse (α : Type) where
  data : α

/-- Model of an axios error as seen by the response interceptor: the
server response is absent when the request never reached the server, and
its body may itself be absent. -/
structure AxiosErrorModel (α : Type) where
  response : Option (AxiosResponse (Option α))

/-- Embeds the fulfilled branch of the client.ts response interceptor:
the promise resolves to response.data, not the raw axios response. -/
def interceptFulfilled {α : Type} (response : AxiosResponse α) : α :=
  response.data

/-- Embeds the rejected branch of the client.ts response interceptor:
reject with the server body when present, otherwise with the fixed
network-error APIResponse value. -/
def interceptRejected {α : Type} (error : AxiosErrorModel (APIResponse α)) :
    APIResponse α :=
  match error.response with
  | some resp =>
      match resp.data with
      | some body => body
      | none => { code := 5000, message := "Network error", data := none }
  | none => { code := 5000, message := "Network error", data := none }

/-! ## Permission matrix page (unnamed PermissionMatrixPage source) -/

/-- Model of a role as loaded by the permission matrix page: a name and
the list of permission names the role holds. -/
structure RoleModel where
  name : String
  permissions : List String
deriving DecidableEq

/-- Model of a permission row as loaded by the permission matrix page. -/
structure PermissionModel where
  name : String
  category : String
deriving DecidableEq

/-- Embeds the 权限覆盖率 Statistic of the permission matrix page:
totalRoles greater than zero selects round of totalPerms divided by
totalPerms times one hundred, else zero. -/
def permissionCoverage (roles : List RoleModel)
    (permissions : List PermissionModel) : Int :=
  let totalPerms : ℚ := permissions.length
  let totalRoles := roles.length
  if totalRoles > 0 then round ((totalPerms / totalPerms) * 100) else 0

/-- Erases the role-permission assignments of a role, keeping its name. -/
def clearRolePermissions (r : RoleModel) : RoleModel :=
  { r with permissions := [] }

/-! ## WebSocket manager (unnamed WebSocketManager source) -/

/-- State of the WebSocketManager fields that drive reconnection. -/
structure WSState where
  reconnectAttempts : Nat
  maxReconnectAttempts : Nat
  reconnectDelay : Nat
  timerPending : Option Nat
deriving DecidableEq

/-- The field initialisers of the WebSocketManager class: zero attempts,
cap five, base delay 1000 ms, no timer pending. -/
def wsInit : WSState :=
  { reconnectAttempts := 0, maxReconnectAttempts := 5,
    reconnectDelay := 1000, timerPending := none }

/-- Embeds scheduleReconnect: a no-op returning no scheduled delay when
the attempt counter has reached the cap, otherwise it schedules a timer
with delay reconnectDelay times two to the power of the current attempt
count. -/
def scheduleReconnect (s : WSState) : WSState × Option Nat :=
  if s.reconnectAttempts ≥ s.maxReconnectAttempts then (s, none)
  else
    let delay := s.reconnectDelay * 2 ^ s.reconnectAttempts
    ({ s with timerPending := some delay }, some delay)

/-- Embeds the timer callback of scheduleReconnect: the attempt counter
is incremented and connect runs again (the timer slot frees). -/
def fireReconnectTimer (s : WSState) : WSState :=
  { s with reconnectAttempts := s.reconnectAttempts + 1,
           timerPending := none }

/-- Trace of delays scheduled across k successive disconnects when every
reconnection attempt ends in onclose again: each disconnect calls
scheduleReconnect, and a fired timer increments the counter before the
next failing connect. -/
def reconnectDelayTrace : Nat → WSState → List Nat
  | 0, _ => []
  | k + 1, s =>
      match scheduleReconnect s with
      | (s', some d) => d :: reconnectDelayTrace k (fireReconnectTimer s')
      | (_, none) => []

/-! ## Declared request and result shapes (frontend/src/api/rules.ts) -/

/-- Primitive field types appearing in the rule-test interfaces. -/
inductive PrimTy
  | str
  | num
  | strOrNull
deriving DecidableEq

/-- One declared field of a TypeScript interface: its name, its primitive
type and whether the field is optional. -/
structure FieldDecl where
  fname : String
  ty : PrimTy
  optional : Bool
deriving DecidableEq

/-- Shape of the rule-test result: the matched_rule object fields, the
element fields of the assigned_staff array, and the remaining top-level
primitive fields. -/
structure TestResultShape where
  matchedRuleFields : List FieldDecl
  assignedStaffItemFields : List FieldDecl
  otherFields : List FieldDecl
deriving DecidableEq

/-- Embeds the RuleTestRequest interface of rules.ts: message_content is
required, category and priority optional. -/
def ruleTestRequestFields : List FieldDecl :=
  [⟨"message_content", .str, false⟩,
   ⟨"category", .str, true⟩,
   ⟨"priority", .str, true⟩]

/-- Embeds the RuleTestResult interface of rules.ts: matched_rule with a
nullable id, assigned_staff items with a nullable department, and the
echoed message_content, category and priority fields. -/
def ruleTestResultShape : TestResultShape :=
  { matchedRuleFields :=
      [⟨"id", .strOrNull, false⟩,
       ⟨"name", .str, false⟩,
       ⟨"type", .str, false⟩,
       ⟨"priority_level", .num, false⟩],
    assignedStaffItemFields :=
      [⟨"id", .str, false⟩,
       ⟨"name", .str, false⟩,
       ⟨"department", .strOrNull, false⟩],
    otherFields :=
      [⟨"message_content", .str, false⟩,
       ⟨"category", .str, true⟩,
       ⟨"priority", .str, true⟩] }

/-- Modelled from the spec: the operation-set signature of test, whose
request besides hotel_id carries message_content with optional category
and priority. -/
def specTestRequestFields : List FieldDecl :=
  [⟨"message_content", .str, false⟩,
   ⟨"category", .str, true⟩,
   ⟨"priority", .str, true⟩]

/-- Modelled from the spec: the operation-set result shape of test, with
matched_rule carrying an optional id and no top-level fields besides
matched_rule and assigned_staff. -/
def specTestResultShape : TestResultShape :=
  { matchedRuleFields :=
      [⟨"id", .str, true⟩,
       ⟨"name", .str, false⟩,
       ⟨"type", .str, false⟩,
       ⟨"priority_level", .num, false⟩],
    assignedStaffItemFields :=
      [⟨"id", .str, false⟩,
       ⟨"name", .str, false⟩,
       ⟨"department", .str, false⟩],
    otherFields := [] }

/-- The result shape as the claim words it: matched_rule with id of type
string or null, assigned_staff items with department of type string or
null, and nothing besides matched_rule and assigned_staff. -/
def claimedTestResultShape : TestResultShape :=
  { matchedRuleFields :=
      [⟨"id", .strOrNull, false⟩,
       ⟨"name", .str, false⟩,
       ⟨"type", .str, false⟩,
       ⟨"priority_level", .num, false⟩],
    assignedStaffItemFields :=
      [⟨"id", .str, false⟩,
       ⟨"name", .str, false⟩,
       ⟨"department", .strOrNull, false⟩],
    otherFields := [] }

/-! ## Rule management page: handleTest and the test drawer -/

/-- Embeds RuleTestRequest values at runtime. -/
structure RuleTestRequestVal where
  message_content : String
  category : Option String
  priority : Option String
deriving DecidableEq

/-- One HTTP request issued through the api client. -/
structure HttpRequest where
  method : String
  path : String
  body : Option RuleTestRequestVal
deriving DecidableEq

/-- Staff entry of a rule-test result as rendered by the test drawer. -/
structure AssignedStaffVal where
  id : String
  name : String
  department : Option String
deriving DecidableEq

/-- Matched-rule entry of a rule-test result. -/
structure MatchedRuleVal where
  id : Option String
  name : String
  rtype : String
  priority_level : Int
deriving DecidableEq

/-- Runtime rule-test result as held in the testResult state. -/
structure RuleTestResultVal where
  matched_rule : MatchedRuleVal
  assigned_staff : List AssignedStaffVal
deriving DecidableEq

/-- Form values read by handleTest from the test drawer form. -/
structure TestFormValues where
  test_message : Option String
  test_category : Option String
  test_priority : Option String
deriving DecidableEq

/-- The useState fields of RuleManagementPage. -/
structure RulePageState where
  rulesLoaded : List String
  loading : Bool
  modalVisible : Bool
  testDrawerVisible : Bool
  editingRule : Option String
  testResult : Option RuleTestResultVal
deriving DecidableEq

/-- Embeds the request body built inside handleTest: message_content
falls back to the empty string, category and priority pass through. -/
def buildTestRequest (v : TestFormValues) : RuleTestRequestVal :=
  { message_content := v.test_message.getD "",
    category := v.test_category,
    priority := v.test_priority }

/-- Embeds rulesApi.test at the transport level: a single POST to the
/rules/test path carrying the request body. -/
def rulesApiTestRequest (body : RuleTestRequestVal) : HttpRequest :=
  { method := "POST", path := "/rules/test", body := some body }

/-- Embeds handleTest on its success path: it issues the one rulesApi.test
request and stores the response payload in testResult. The returned list
is every request the handler issues. -/
def handleTest (st : RulePageState) (v : TestFormValues)
    (respData : Option RuleTestResultVal) :
    RulePageState × List HttpRequest :=
  ({ st with testResult := respData },
   [rulesApiTestRequest (buildTestRequest v)])

/-- Embeds the assigned-staff block of the test drawer result card: a tag
per staff name when the list is non-empty, otherwise the 无可用员工
secondary text. -/
def renderAssignedStaff (staff : List AssignedStaffVal) :
    List String ⊕ String :=
  if staff.length > 0 then Sum.inl (staff.map (fun s => s.name))
  else Sum.inr "无可用员工"

/-! ## Routing engine, modelled from the specification

The backend engine (rule evaluator, assignment resolver, ticket state
machine, dispatch orchestrator) is not part of this repository snapshot;
only its frontend callers are. The definitions below are modelled from
the specification sections 3, 4.1, 4.2, 4.3 and 4.4. -/

/-- Modelled from the spec: the rule type tagged variant. -/
inductive RuleType
  | keyword
  | category
  | priority
  | round_robin
  | manual
deriving DecidableEq

/-- Modelled from the spec: a RoutingRule of the rule store. -/
structure Rule where
  id : Nat
  rtype : RuleType
  keywords : List String
  category : Option String
  priority : Option String
  target_staff : List Nat
  rule_priority : Int
  is_active : Bool
  created_at : Nat
deriving DecidableEq

/-- Modelled from the spec: the candidate attributes handed to the rule
evaluator. -/
structure Candidate where
  content : Option String
  category : Option String
  priority : Option String
deriving DecidableEq

/-- True when the first list is a leading segment of the second. -/
def leadingMatch : List Char → List Char → Bool
  | [], _ => true
  | _ :: _, [] => false
  | a :: as, b :: bs => a == b && leadingMatch as bs

/-- True when the pattern occurs as a contiguous run of the text. -/
def containsSeq (pat : List Char) : List Char → Bool
  | [] => leadingMatch pat []
  | c :: cs => leadingMatch pat (c :: cs) || containsSeq pat cs

/-- Modelled from the spec: case-insensitive substring containment used
by keyword rules. -/
def containsCI (content keyword : String) : Bool :=
  containsSeq keyword.toLower.data content.toLower.data

/-- Modelled from the spec: the per-tag match predicate of the rule
evaluator. Keyword rules need non-null content containing one keyword;
category and priority rules compare the candidate attribute with the rule
match value; round_robin always matches; manual never matches
automatically. -/
def ruleMatches (c : Candidate) (r : Rule) : Bool :=
  match r.rtype with
  | .keyword =>
      match c.content with
      | some content => r.keywords.any (fun kw => containsCI content kw)
      | none => false
  | .category => c.category == r.category
  | .priority => c.priority == r.priority
  | .round_robin => true
  | .manual => false

/-- Modelled from the spec: the evaluation order — rule_priority
descending, created_at ascending as tie-break. True when a should come
no later than b. -/
def ruleBefore (a b : Rule) : Bool :=
  a.rule_priority > b.rule_priority ||
  (a.rule_priority == b.rule_priority && a.created_at ≤ b.created_at)

/-- Insertion step of the evaluation-order sort. -/
def insertRuleSorted (r : Rule) : List Rule → List Rule
  | [] => [r]
  | x :: xs =>
      if ruleBefore x r then x :: insertRuleSorted r xs else r :: x :: xs

/-- Modelled from the spec: sort the rules into evaluation order. -/
def sortRules : List Rule → List Rule
  | [] => []
  | r :: rs => insertRuleSorted r (sortRules rs)

/-- Modelled from the spec: the rule evaluator — filter to active rules,
sort into evaluation order, return the first rule whose predicate
matches. -/
def evaluate (c : Candidate) (rules : List Rule) : Option Rule :=
  (sortRules (rules.filter (fun r => r.is_active))).find? (ruleMatches c)

/-- Modelled from the spec: the ticket status state set. -/
inductive TStatus
  | pending
  | assigned
  | in_progress
  | resolved
  | closed
  | reopened
deriving DecidableEq

/-- Modelled from the spec: the section 4.3 transition table, allowed
next states by current state. -/
def allowedTransitions : TStatus → List TStatus
  | .pending => [.assigned, .closed]
  | .assigned => [.in_progress, .pending, .closed]
  | .in_progress => [.resolved, .assigned, .closed]
  | .resolved => [.closed, .reopened]
  | .closed => [.reopened]
  | .reopened => [.assigned, .in_progress, .pending]

/-- Modelled from the spec: timeline event types. -/
inductive EventType
  | created
  | assigned
  | status_changed
  | comment
  | resolved
  | closed
  | reopened
deriving DecidableEq

/-- Modelled from the spec: a TimelineEvent row of the timeline ledger. -/
structure TimelineEvent where
  ticket_id : Nat
  event_type : EventType
  old_value : Option TStatus
  new_value : Option TStatus
  comment : Option String
  staff_id : Option Nat
deriving DecidableEq

/-- Modelled from the spec: a Ticket row. -/
structure Ticket where
  id : Nat
  status : TStatus
  assigned_to : Option Nat
  matched_rule_id : Option Nat
  resolved_at : Option Nat
  closed_at : Option Nat
deriving DecidableEq

/-- Modelled from the spec: the persistent state the dispatch
orchestrator owns — tickets, the timeline ledger, the round-robin cursor
store and the next ticket id. -/
structure EngineState where
  tickets : List Ticket
  events : List TimelineEvent
  cursors : List (Nat × Nat)
  nextId : Nat
deriving DecidableEq

/-- Look a ticket up by id. -/
def findTicket (st : EngineState) (tid : Nat) : Option Ticket :=
  st.tickets.find? (fun t => t.id == tid)

/-- Modelled from the spec: cursor read — created lazily, so a missing
cursor reads as zero. -/
def getCursor (st : EngineState) (rid : Nat) : Nat :=
  ((st.cursors.lookup rid).getD 0)

/-- Modelled from the spec: cursor write for one rule. -/
def setCursor (st : EngineState) (rid n : Nat) : EngineState :=
  { st with cursors := (rid, n) :: st.cursors.filter (fun p => !(p.1 == rid)) }

/-- Modelled from the spec: the candidate pool of the assignment
resolver — the rule target staff filtered to currently available
staff. -/
def availablePool (r : Rule) (available : List Nat) : List Nat :=
  r.target_staff.filter (fun s => available.contains s)

/-- Modelled from the spec: the assignment resolver. Empty pool resolves
to no staff. A round_robin rule selects the pool entry at the cursor
modulo the pool size and, only outside dry-run, writes the advanced
cursor back; every other type selects the first available staff in list
order and never writes the cursor. -/
def resolveStep (dryRun : Bool) (r : Rule) (available : List Nat)
    (st : EngineState) : EngineState × Option Nat :=
  let pool := availablePool r available
  if pool.isEmpty then (st, none)
  else
    match r.rtype with
    | .round_robin =>
        let cur := getCursor st r.id
        let st' :=
          if dryRun then st
          else setCursor st r.id ((cur + 1) % pool.length)
        (st', pool.get? (cur % pool.length))
    | _ => (st, pool.head?)

/-- Modelled from the spec: field updates of one accepted transition —
status update, assigned_to set on entering assigned and cleared on
explicit unassignment to pending, resolved_at and closed_at stamped on
first entry. -/
def applyStatusFields (t : Ticket) (target : TStatus) (actor : Option Nat)
    (now : Nat) : Ticket :=
  let t1 := { t with status := target }
  let t2 :=
    match target with
    | .assigned =>
        { t1 with assigned_to :=
            match actor with
            | some a => some a
            | none => t1.assigned_to }
    | .pending => { t1 with assigned_to := none }
    | _ => t1
  let t3 :=
    if target = .resolved ∧ t2.resolved_at.isNone then
      { t2 with resolved_at := some now }
    else t2
  if target = .closed ∧ t3.closed_at.isNone then
    { t3 with closed_at := some now }
  else t3

/-- Modelled from the spec: the one timeline event an accepted transition
appends, carrying the previous and new status. -/
def statusEvent (tid : Nat) (source target : TStatus) (actor : Option Nat)
    (comment : Option String) : TimelineEvent :=
  { ticket_id := tid, event_type := .status_changed,
    old_value := some source, new_value := some target,
    comment := comment, staff_id := actor }

/-- Modelled from the spec: commit one accepted transition — update the
ticket fields and append exactly one timeline event. -/
def commitTransition (st : EngineState) (tid : Nat) (source target : TStatus)
    (actor : Option Nat) (comment : Option String) (now : Nat) : EngineState :=
  { st with
    tickets := st.tickets.map
      (fun u => if u.id == tid then applyStatusFields u target actor now else u),
    events := st.events ++ [statusEvent tid source target actor comment] }

/-- Modelled from the spec: the error taxonomy entries the transition
entry point can raise. -/
inductive TransError
  | notFound
  | invalidTransition (source target : TStatus)
deriving DecidableEq

/-- Modelled from the spec: applyTransition of the ticket state machine —
unknown ticket fails NotFound; a target outside the transition table
fails InvalidTransitionError; an allowed transition commits. -/
def applyTransition (st : EngineState) (tid : Nat) (target : TStatus)
    (actor : Option Nat) (comment : Option String) (now : Nat) :
    Except TransError EngineState :=
  match findTicket st tid with
  | none => .error .notFound
  | some t =>
      if target ∈ allowedTransitions t.status then
        .ok (commitTransition st tid t.status target actor comment now)
      else .error (.invalidTransition t.status target)

/-- Modelled from the spec: atomic rejection — a failed transition leaves
the state exactly as it was. -/
def applyTransitionStep (st : EngineState) (tid : Nat) (target : TStatus)
    (actor : Option Nat) (comment : Option String) (now : Nat) :
    EngineState × Option TransError :=
  match applyTransition st tid target actor comment now with
  | .ok st' => (st', none)
  | .error e => (st, some e)

/-- Modelled from the spec: the created event emitted when a ticket is
created, before any status-change event. -/
def createdEvent (tid : Nat) : TimelineEvent :=
  { ticket_id := tid, event_type := .created,
    old_value := none, new_value := none, comment := none, staff_id := none }

/-- A freshly created ticket in pending with no assignment. -/
def newTicket (tid : Nat) : Ticket :=
  { id := tid, status := .pending, assigned_to := none,
    matched_rule_id := none, resolved_at := none, closed_at := none }

/-- Record the matched rule id on a ticket. -/
def recordMatchedRule (st : EngineState) (tid rid : Nat) : EngineState :=
  { st with
    tickets := st.tickets.map
      (fun u => if u.id == tid then { u with matched_rule_id := some rid } else u) }

/-- Outcome of the test entry point. -/
structure TestOutcome where
  matched : Option Rule
  wouldAssign : Option Nat
deriving DecidableEq

/-- Modelled from the spec: the test entry point of the dispatch
orchestrator — rule evaluator then assignment resolver in dry-run mode;
it reads the cursor but never writes it and touches no ticket or
timeline row. -/
def testOp (rules : List Rule) (available : List Nat) (c : Candidate)
    (st : EngineState) : EngineState × TestOutcome :=
  match evaluate c rules with
  | none => (st, { matched := none, wouldAssign := none })
  | some r =>
      let rs := resolveStep true r available st
      (rs.1, { matched := some r, wouldAssign := rs.2 })

/-- Iterated test calls, threading the engine state. -/
def iterTestState (rules : List Rule) (available : List Nat) (c : Candidate) :
    Nat → EngineState → EngineState
  | 0, st => st
  | n + 1, st => iterTestState rules available c n (testOp rules available c st).1

/-- Outcome of the route entry point. -/
structure RouteOutcome where
  ticketId : Nat
  matched : Option Rule
  assignedStaff : Option Nat
deriving DecidableEq

/-- Modelled from the spec: the route entry point of the dispatch
orchestrator — evaluate, create the ticket in pending with its created
event, record the matched rule id, resolve in real mode, and apply the
pending to assigned transition when a staff id was resolved; with no
staff available the ticket stays pending and unassigned. -/
def route (rules : List Rule) (available : List Nat) (c : Candidate)
    (st : EngineState) (now : Nat) : EngineState × RouteOutcome :=
  let tid := st.nextId
  let st1 := { st with
    tickets := st.tickets ++ [newTicket tid],
    events := st.events ++ [createdEvent tid],
    nextId := tid + 1 }
  match evaluate c rules with
  | none => (st1, { ticketId := tid, matched := none, assignedStaff := none })
  | some r =>
      let st2 := recordMatchedRule st1 tid r.id
      let rs := resolveStep false r available st2
      match rs.2 with
      | none => (rs.1, { ticketId := tid, matched := some r, assignedStaff := none })
      | some s =>
          (commitTransition rs.1 tid .pending .assigned (some s) none now,
           { ticketId := tid, matched := some r, assignedStaff := some s })

/-! ## Concrete sample data -/

/-- A sample engine state holding one freshly created pending ticket. -/
def demoState : EngineState :=
  { tickets := [newTicket 1], events := [createdEvent 1],
    cursors := [], nextId := 2 }

/-- A sample active catch-all round_robin rule targeting staff 7. -/
def demoRule : Rule :=
  { id := 3, rtype := .round_robin, keywords := [], category := none,
    priority := none, target_staff := [7], rule_priority := 0,
    is_active := true, created_at := 0 }

/-- A sample candidate with no content. -/
def demoCandidate : Candidate :=
  { content := none, category := none, priority := none }

/-! ## Helper lemmas -/

theorem lookup_none_of_not_mem_keys (l : List (String × String)) (a : String)
    (h : a ∉ l.map Prod.fst) : l.lookup a = none := by
  induction l with
  | nil => rfl
  | cons p l ih =>
      simp only [List.map_cons, List.mem_cons, not_or] at h
      have hne : (a == p.1) = false := by
        exact beq_eq_false_iff_ne.mpr h.1
      simp [List.lookup, hne, ih h.2]

theorem resolveStep_dry_fst (r : Rule) (available : List Nat)
    (st : EngineState) : (resolveStep true r available st).1 = st := by
  unfold resolveStep
  by_cases h : (availablePool r available).isEmpty <;>
    cases r.rtype <;> simp [h]

theorem resolveStep_empty_pool (d : Bool) (r : Rule) (available : List Nat)
    (st : EngineState) (h : availablePool r available = []) :
    resolveStep d r available st = (st, none) := by
  unfold resolveStep
  simp [h]

theorem testOp_state_fixed (rules : List Rule) (available : List Nat)
    (c : Candidate) (st : EngineState) :
    (testOp rules available c st).1 = st := by
  unfold testOp
  cases h : evaluate c rules with
  | none => rfl
  | some r => simp [resolveStep_dry_fst]

theorem iterTestState_fixed (rules : List Rule) (available : List Nat)
    (c : Candidate) : ∀ (n : Nat) (st : EngineState),
    iterTestState rules available c n st = st := by
  intro n
  induction n with
  | zero => intro st; rfl
  | succ n ih =>
      intro st
      show iterTestState rules available c n (testOp rules available c st).1 = st
      rw [testOp_state_fixed, ih]

theorem map_update_id_of_fresh (l : List Ticket) (tid : Nat)
    (f : Ticket → Ticket) (h : ∀ t ∈ l, t.id ≠ tid) :
    l.map (fun u => if u.id == tid then f u else u) = l := by
  have hcong : ∀ t ∈ l, (if t.id == tid then f t else t) = t := by
    intro t ht
    simp [beq_eq_false_iff_ne.mpr (h t ht)]
  rw [List.map_congr_left hcong]
  exact List.map_id l

theorem reconnectDelayTrace_closed :
    ∀ (k a : Nat) (t : Option Nat),
      reconnectDelayTrace k ⟨a, 5, 1000, t⟩ =
        (List.range (min k (5 - a))).map (fun i => 1000 * 2 ^ (a + i)) := by
  intro k
  induction k with
  | zero => intro a t; simp [reconnectDelayTrace]
  | succ k ih =>
      intro a t
      by_cases h : a ≥ 5
      · have h5 : 5 - a = 0 := Nat.sub_eq_zero_of_le h
        simp [reconnectDelayTrace, scheduleReconnect, h, h5]
      · have ha : a < 5 := Nat.lt_of_not_le h
        have hstep : 5 - a = (5 - (a + 1)) + 1 := by omega
        simp only [reconnectDelayTrace, scheduleReconnect, h, if_false,
          fireReconnectTimer, ite_false]
        rw [ih (a + 1) none, hstep, Nat.succ_min_succ, List.range_succ_eq_map,
          List.map_cons, List.map_map]
        congr 1
        refine List.map_congr_left ?_
        intro i _
        have hexp : a + 1 + i = a + Nat.succ i := by omega
        simp [Function.comp, hexp]

/-! ## Claim theorems -/

/-- Claim C4, counterexample: the frontend RuleTestResult interface does
not have exactly the claimed two-field shape, nor the section 6 result
shape — it additionally echoes message_content, category and priority. -/
theorem c4_result_shape_counterexample :
    ruleTestResultShape ≠ claimedTestResultShape ∧
    ruleTestResultShape ≠ specTestResultShape := by
  refine ⟨?_, ?_⟩ <;> decide

/-- Claim C4, amended: the frontend RuleTestRequest fields match the
section 6 request parameters exactly; the RuleTestResult matched_rule and
assigned_staff fields have exactly the claimed inner shapes; but the
result additionally echoes message_content with optional category and
priority at top level. -/
theorem c4_shapes_agree_up_to_echo :
    ruleTestRequestFields = specTestRequestFields ∧
    ruleTestResultShape.matchedRuleFields =
      claimedTestResultShape.matchedRuleFields ∧
    ruleTestResultShape.assignedStaffItemFields =
      claimedTestResultShape.assignedStaffItemFields ∧
    ruleTestResultShape.otherFields =
      [⟨"message_content", .str, false⟩,
       ⟨"category", .str, true⟩,
       ⟨"priority", .str, true⟩] :=
  ⟨rfl, rfl, rfl, rfl⟩

/-- Claim C5, counterexample: round_robin is one of the five rule types
but is not offered as a selectable option in the rule create and edit
form's rule_type selector. -/
theorem c5_selector_counterexample :
    "round_robin" ∈ specRuleTypes ∧
    "round_robin" ∉ ruleTypeSelectOptions := by
  refine ⟨?_, ?_⟩ <;> decide

/-- Claim C5, amended: the type label map of the rule management page
covers all five rule types, but the rule_type selector offers exactly
keyword, category, priority and manual — every type except round_robin. -/
theorem c5_type_coverage :
    typeMap.map Prod.fst = specRuleTypes ∧
    (specRuleTypes.all fun t => (typeMap.lookup t).isSome) = true ∧
    ruleTypeSelectOptions = ["keyword", "category", "priority", "manual"] ∧
    (ruleTypeSelectOptions.all fun t => specRuleTypes.contains t) = true := by
  refine ⟨rfl, ?_, rfl, ?_⟩ <;> decide

/-- Claim C6, counterexample: reopened is one of the six ticket statuses
but is not offered as an option in the ticket list status-filter
selector. -/
theorem c6_filter_counterexample :
    "reopened" ∈ specTicketStatuses ∧
    "reopened" ∉ statusFilterOptions := by
  refine ⟨?_, ?_⟩ <;> decide

/-- Claim C6, amended: the status tag mapping of the ticket list covers
all six statuses, but the status-filter selector offers exactly pending,
assigned, in_progress, resolved and closed — every status except
reopened. -/
theorem c6_status_coverage :
    ticketListStatusMap.map Prod.fst = specTicketStatuses ∧
    (specTicketStatuses.all fun s => (ticketListStatusMap.lookup s).isSome)
      = true ∧
    statusFilterOptions =
      ["pending", "assigned", "in_progress", "resolved", "closed"] ∧
    (statusFilterOptions.all fun s => specTicketStatuses.contains s) = true := by
  refine ⟨rfl, ?_, rfl, ?_⟩ <;> decide

/-- Claim C7: getEventTypeLabel defines a label for exactly the seven
event types of the data model, and returns every string outside this set
unchanged. -/
theorem c7_event_type_labels :
    eventTypeLabels.map Prod.fst = specEventTypes ∧
    getEventTypeLabel "created" = "创建工单" ∧
    getEventTypeLabel "assigned" = "分配工单" ∧
    getEventTypeLabel "status_changed" = "状态变更" ∧
    getEventTypeLabel "comment" = "添加评论" ∧
    getEventTypeLabel "resolved" = "已解决" ∧
    getEventTypeLabel "closed" = "已关闭" ∧
    getEventTypeLabel "reopened" = "已重开" ∧
    (∀ s : String, s ∉ specEventTypes → getEventTypeLabel s = s) := by
  refine ⟨rfl, rfl, rfl, rfl, rfl, rfl, rfl, rfl, ?_⟩
  intro s hs
  have hkeys : s ∉ eventTypeLabels.map Prod.fst := hs
  unfold getEventTypeLabel
  rw [lookup_none_of_not_mem_keys eventTypeLabels s hkeys]
  rfl

/-- Claim C7, witness: a string outside the event-type set is returned
unchanged. -/
theorem c7_witness :
    ("custom_event" ∉ specEventTypes) ∧
    getEventTypeLabel "custom_event" = "custom_event" :=
  ⟨by decide, c7_event_type_labels.2.2.2.2.2.2.2.2 "custom_event" (by decide)⟩

/-- Claim C8: the displayed permission-coverage statistic equals 100 for
every loaded data set with at least one role and at least one permission,
and it is not a function of the role-permission assignments. -/
theorem c8_coverage_constant :
    (∀ (roles : List RoleModel) (perms : List PermissionModel),
        0 < roles.length → 0 < perms.length →
        permissionCoverage roles perms = 100) ∧
    (∀ (roles : List RoleModel) (perms : List PermissionModel),
        permissionCoverage roles perms =
          permissionCoverage (roles.map clearRolePermissions) perms) := by
  constructor
  · intro roles perms hr hp
    unfold permissionCoverage
    rw [if_pos hr]
    have hp0 : ((perms.length : ℚ)) ≠ 0 := by
      exact_mod_cast Nat.pos_iff_ne_zero.mp hp
    rw [div_self hp0, one_mul]
    norm_num
  · intro roles perms
    unfold permissionCoverage
    simp

/-- Claim C8, witness: one role holding no permissions and one permission
still display a coverage of 100. -/
theorem c8_witness :
    0 < ([⟨"staff", []⟩] : List RoleModel).length ∧
    0 < ([⟨"view_tickets", "ticket"⟩] : List PermissionModel).length ∧
    permissionCoverage [⟨"staff", []⟩] [⟨"view_tickets", "ticket"⟩] = 100 :=
  ⟨by decide, by decide,
   c8_coverage_constant.1 [⟨"staff", []⟩] [⟨"view_tickets", "ticket"⟩]
     (by decide) (by decide)⟩

/-- Claim C9: the shared api client resolves every fulfilled promise to
the parsed body, and rejects with the server body when one exists,
otherwise with exactly the code 5000 Network error APIResponse value. -/
theorem c9_interceptor_shape :
    (∀ (α : Type) (r : AxiosResponse α), interceptFulfilled r = r.data) ∧
    (∀ (α : Type) (body : APIResponse α),
        interceptRejected ⟨some ⟨some body⟩⟩ = body) ∧
    (∀ (α : Type),
        @interceptRejected α ⟨some ⟨none⟩⟩ =
          ⟨5000, "Network error", none⟩) ∧
    (∀ (α : Type),
        @interceptRejected α ⟨none⟩ = ⟨5000, "Network error", none⟩) :=
  ⟨fun _ _ => rfl, fun _ _ => rfl, fun _ => rfl, fun _ => rfl⟩

/-- Claim C10: scheduleReconnect is a no-op once the attempt counter
reaches the cap; in a run of successive disconnects starting from the
initial manager state the scheduled delays are exactly 1000 times two to
the power of the zero-based retry index, and never more than five
reconnect attempts are scheduled. -/
theorem c10_reconnect_backoff :
    (∀ s : WSState, s.maxReconnectAttempts ≤ s.reconnectAttempts →
        scheduleReconnect s = (s, none)) ∧
    (∀ k, reconnectDelayTrace k wsInit =
        (List.range (min k 5)).map (fun i => 1000 * 2 ^ i)) ∧
    (∀ k, (reconnectDelayTrace k wsInit).length ≤ 5) := by
  have htrace : ∀ k, reconnectDelayTrace k wsInit =
      (List.range (min k 5)).map (fun i => 1000 * 2 ^ i) := by
    intro k
    have := reconnectDelayTrace_closed k 0 none
    simpa using this
  refine ⟨?_, htrace, ?_⟩
  · intro s hcap
    unfold scheduleReconnect
    rw [if_pos hcap]
  · intro k
    rw [htrace k]
    simp [Nat.min_le_right]

/-- Claim C10, witness: at a counter of five the schedule call returns
the state unchanged with nothing scheduled, and nine straight disconnects
yield exactly the five delays 1000, 2000, 4000, 8000, 16000. -/
theorem c10_witness :
    (5 ≤ 5) ∧
    scheduleReconnect ⟨5, 5, 1000, none⟩ = (⟨5, 5, 1000, none⟩, none) ∧
    reconnectDelayTrace 9 wsInit = [1000, 2000, 4000, 8000, 16000] :=
  ⟨by decide, c10_reconnect_backoff.1 ⟨5, 5, 1000, none⟩ (by decide),
   by rw [c10_reconnect_backoff.2.1 9]; rfl⟩

/-- Claim C1: handleTest issues exactly the one POST to /rules/test and
writes only the testResult field of the page state; and the test entry
point of the engine leaves the engine state untouched, so any number of
test calls never creates a ticket or timeline row and never changes the
outcome of a subsequent real route call. -/
theorem c1_test_frame_effect :
    (∀ (st : RulePageState) (v : TestFormValues)
        (resp : Option RuleTestResultVal),
        (handleTest st v resp).2 = [rulesApiTestRequest (buildTestRequest v)] ∧
        (handleTest st v resp).2.length = 1 ∧
        ((handleTest st v resp).2.all fun q =>
          q.method == "POST" && q.path == "/rules/test") = true ∧
        (handleTest st v resp).1 = { st with testResult := resp }) ∧
    (∀ rules available c st, (testOp rules available c st).1 = st) ∧
    (∀ rules available c n st,
        iterTestState rules available c n st = st) ∧
    (∀ rules available c c' n st now,
        route rules available c' (iterTestState rules available c n st) now =
          route rules available c' st now) := by
  refine ⟨fun st v resp => ⟨rfl, rfl, rfl, rfl⟩,
    fun rules available c st => testOp_state_fixed rules available c st,
    fun rules available c n st => iterTestState_fixed rules available c n st,
    fun rules available c c' n st now => ?_⟩
  rw [iterTestState_fixed]

/-- Claim C2: every transition whose target is outside the section 4.3
table for the ticket's current status fails with InvalidTransitionError,
and the rejected step returns the engine state — tickets and timeline —
exactly unchanged. -/
theorem c2_invalid_transition_rejected :
    ∀ (source target : TStatus), target ∉ allowedTransitions source →
    ∀ (st : EngineState) (tid : Nat) (t : Ticket),
      findTicket st tid = some t → t.status = source →
      ∀ (actor : Option Nat) (comment : Option String) (now : Nat),
        applyTransition st tid target actor comment now =
          .error (.invalidTransition source target) ∧
        applyTransitionStep st tid target actor comment now =
          (st, some (.invalidTransition source target)) := by
  intro source target hnot st tid t hfind hstat actor comment now
  subst hstat
  have h1 : applyTransition st tid target actor comment now =
      .error (.invalidTransition t.status target) := by
    unfold applyTransition
    rw [hfind]
    simp [hnot]
  refine ⟨h1, ?_⟩
  unfold applyTransitionStep
  rw [h1]

/-- Claim C2, witness: pending to in_progress is outside the table; on a
state holding one pending ticket the step fails with
InvalidTransitionError and returns the state unchanged. -/
theorem c2_witness :
    (TStatus.in_progress ∉ allowedTransitions .pending) ∧
    findTicket demoState 1 = some (newTicket 1) ∧
    (newTicket 1).status = .pending ∧
    applyTransitionStep demoState 1 .in_progress none none 0 =
      (demoState, some (.invalidTransition .pending .in_progress)) :=
  ⟨by decide, rfl, rfl,
   (c2_invalid_transition_rejected .pending .in_progress (by decide)
     demoState 1 (newTicket 1) rfl rfl none none 0).2⟩

/-- Claim C3: an empty assigned_staff list renders as the normal
无可用员工 text rather than an error; with a matched rule whose pool is
empty the test outcome is a success carrying no staff, and route still
creates the ticket, pending and unassigned, with the matched rule
recorded and only the created event appended. -/
theorem c3_no_staff_nonfatal :
    renderAssignedStaff [] = Sum.inr "无可用员工" ∧
    (∀ rules available c st r, evaluate c rules = some r →
        availablePool r available = [] →
        testOp rules available c st =
          (st, { matched := some r, wouldAssign := none })) ∧
    (∀ rules available c st now r, evaluate c rules = some r →
        availablePool r available = [] →
        (∀ t ∈ st.tickets, t.id ≠ st.nextId) →
        route rules available c st now =
          ({ st with
               tickets := st.tickets ++
                 [{ newTicket st.nextId with matched_rule_id := some r.id }],
               events := st.events ++ [createdEvent st.nextId],
               nextId := st.nextId + 1 },
           { ticketId := st.nextId, matched := some r,
             assignedStaff := none })) := by
  refine ⟨rfl, ?_, ?_⟩
  · intro rules available c st r heval hpool
    simp [testOp, heval, resolveStep_empty_pool true r available st hpool]
  · intro rules available c st now r heval hpool hfresh
    simp only [route, heval, recordMatchedRule, List.map_append,
      map_update_id_of_fresh st.tickets st.nextId _ hfresh,
      List.map_cons, List.map_nil, beq_self_eq_true, if_true]
    rw [resolveStep_empty_pool false r available _ hpool]
    simp [newTicket]

/-- Claim C3, witness: the catch-all sample rule matches with nobody
available; the test outcome reports no staff and route creates a pending,
unassigned ticket recording the rule. -/
theorem c3_witness :
    evaluate demoCandidate [demoRule] = some demoRule ∧
    availablePool demoRule [] = [] ∧
    (demoState.tickets.all fun t => t.id != demoState.nextId) = true ∧
    route [demoRule] [] demoCandidate demoState 5 =
      ({ demoState with
           tickets := demoState.tickets ++
             [{ newTicket 2 with matched_rule_id := some 3 }],
           events := demoState.events ++ [createdEvent 2],
           nextId := 3 },
       { ticketId := 2, matched := some demoRule, assignedStaff := none }) :=
  ⟨rfl, rfl, rfl,
   c3_no_staff_nonfatal.2.2 [demoRule] [] demoCandidate demoState 5 demoRule
     rfl rfl (by decide)⟩

end InConnect
